import Mathlib

/-!
Verification of the AI-DMS document-management module: a shallow embedding
of the retention-date resolver (`documents_document.py`), the classification
result applier (`ai_classification_service.py`) and the processing queue
state machine (`document_processing_queue.py`), together with proofs of the
specified properties.
-/

/-! ## Calendar dates and `dateutil.relativedelta` arithmetic -/

/-- A calendar date (year, month 1..12, day 1..31). -/
structure Date where
  year : Int
  month : Nat
  day : Nat
deriving DecidableEq, Repr

/-- Gregorian leap-year rule. -/
def isLeapYear (y : Int) : Bool :=
  y % 4 == 0 && (y % 100 != 0 || y % 400 == 0)

/-- Number of days in a month (`calendar.monthrange(year, month)[1]`). -/
def daysInMonth (y : Int) (m : Nat) : Nat :=
  if m = 2 then (if isLeapYear y then 29 else 28)
  else if m = 4 ∨ m = 6 ∨ m = 9 ∨ m = 11 then 30
  else 31

/-- `relativedelta._fix`: a months component with magnitude above 12 is
normalized into the years component, keeping its sign. -/
def normalizeDelta (years months : Int) : Int × Int :=
  if 12 < months.natAbs then
    let s : Int := if months < 0 then -1 else 1
    (years + s * (months.natAbs / 12 : Nat), s * (months.natAbs % 12 : Nat))
  else (years, months)

/-- `date + relativedelta(years=..., months=...)` from `dateutil`: add the
normalized years and months, carry the month into the year, and clamp the
day to the last valid day of the resulting month. -/
def addRelativeDelta (d : Date) (years months : Int) : Date :=
  let p := normalizeDelta years months
  let year := d.year + p.1
  let month : Int := (d.month : Int) + p.2
  let yM : Int × Int :=
    if 12 < month then (year + 1, month - 12)
    else if month < 1 then (year - 1, month + 12)
    else (year, month)
  { year := yM.1, month := yM.2.toNat,
    day := min d.day (daysInMonth yM.1 yM.2.toNat) }

/-- Date comparison (`retention_date <= today`). -/
def dateLe (a b : Date) : Bool :=
  a.year < b.year ∨ (a.year = b.year ∧
    (a.month < b.month ∨ (a.month = b.month ∧ a.day ≤ b.day)))

/-! ## Retention policies and the retention resolver
(`documents_document.py`, `_compute_retention_date` /
`_compute_retention_action_due`) -/

/-- `documents.retention.policy.retention_trigger` selection values. -/
inductive RetentionTrigger where
  | creation
  | document_date
  | expiry
  | last_access
  | fiscal_year_end
deriving DecidableEq, Repr

/-- The fields of `documents.retention.policy` read by the resolver. -/
structure RetentionPolicy where
  retention_years : Int
  retention_months : Int
  retention_trigger : RetentionTrigger
deriving DecidableEq, Repr

/-- The temporal attributes of `documents.document` read by the resolver.
`create_date` is the date portion of the record creation timestamp. -/
structure DocDates where
  create_date : Option Date
  document_date : Option Date
deriving DecidableEq, Repr

/-- `DocumentsDocument._compute_retention_date` for one document:
resolve the trigger date from the policy's trigger kind, then add the
policy duration with `relativedelta`; `none` models the `False` value. -/
def compute_retention_date (doc : DocDates) (policy : Option RetentionPolicy) :
    Option Date :=
  match policy with
  | none => none
  | some p =>
    let trigger_date : Option Date :=
      match p.retention_trigger with
      | .creation => doc.create_date
      | .document_date => doc.document_date
      | .fiscal_year_end =>
          doc.document_date.map (fun d => { year := d.year, month := 12, day := 31 })
      | .expiry => none
      | .last_access => none
    trigger_date.map (fun t => addRelativeDelta t p.retention_years p.retention_months)

/-- `DocumentsDocument._compute_retention_action_due`:
`bool(retention_date and retention_date <= today)`. -/
def compute_retention_action_due (today : Date) (retention_date : Option Date) :
    Bool :=
  match retention_date with
  | none => false
  | some d => dateLe d today

/-! ## Classification results and the result applier
(`ai_classification_service.py`) -/

/-- The `extracted_data` sub-dictionary of a classification result; the
amount is kept as the string the provider returned (`str(amount)`). -/
structure ExtractedData where
  vendor_name : Option String
  amount : Option String
  currency : Option String
  date : Option String
  reference : Option String
deriving DecidableEq, Repr

instance : Inhabited ExtractedData :=
  ⟨{ vendor_name := none, amount := none, currency := none,
     date := none, reference := none }⟩

/-- A classification result dictionary as returned by
`classify_document`; an absent key is `none`. The confidence is the
rational value of the provider's number. -/
structure ClassificationResult where
  error : Option String
  confidence : Option ℚ
  document_type : Option String
  extracted_data : Option ExtractedData
  sensitivity : Option String
  suggested_tags : Option (List String)
deriving DecidableEq, Repr

/-- Python truthiness of an optional string (`if extracted.get(...)`). -/
def truthyStr : Option String → Bool
  | some s => !(s = "")
  | none => false

/-- Python truthiness of an optional list (`if classification.get(...)`). -/
def truthyList : Option (List String) → Bool
  | some l => !(l = [])
  | none => false

/-- One needle-list starts the haystack-list (character comparison). -/
def charsStart : List Char → List Char → Bool
  | [], _ => true
  | _ :: _, [] => false
  | a :: as, b :: bs => a = b && charsStart as bs

/-- The needle occurs somewhere in the haystack. -/
def charsOccur (needle : List Char) : List Char → Bool
  | [] => charsStart needle []
  | c :: t => charsStart needle (c :: t) || charsOccur needle t

/-- Odoo `('name', 'ilike', value)`: case-insensitive substring match of
the search value inside the stored name. -/
def ilikeMatch (value stored : String) : Bool :=
  charsOccur (value.toList.map Char.toLower) (stored.toList.map Char.toLower)

/-- One row of the `documents.tag` table. -/
structure Tag where
  id : Nat
  name : String
deriving DecidableEq, Repr

/-- Decimal parsing of `str(amount).replace(',', '.')` by Python
`float(...)`: optional sign, digits, optional fractional part; `none`
models the `ValueError` branch. -/
def parseAmount (s : String) : Option ℚ :=
  let cs := s.toList
  let sp : ℚ × List Char :=
    match cs with
    | '-' :: rest => (-1, rest)
    | '+' :: rest => (1, rest)
    | _ => (1, cs)
  let intPart := sp.2.takeWhile (·.isDigit)
  let rest := sp.2.dropWhile (·.isDigit)
  let digitsVal : List Char → ℚ :=
    fun l => ((l.foldl (fun a c => a * 10 + (c.toNat - 48)) 0 : Nat) : ℚ)
  match rest with
  | [] => if intPart = [] then none else some (sp.1 * digitsVal intPart)
  | '.' :: frac =>
    if frac.all (·.isDigit) && !(intPart = [] && frac = []) then
      some (sp.1 * (digitsVal intPart + digitsVal frac / (10 : ℚ) ^ frac.length))
    else none
  | _ => none

/-- The service configuration fields read by `apply_classification`. -/
structure AIService where
  confidence_threshold : ℚ
  auto_tag : Bool
  auto_extract : Bool
deriving Repr

/-- One iteration of the `_get_or_create_tags` loop: an `ilike` search
limited to one row appends the found tag id; a miss appends nothing. -/
def tagStep (tags : List Tag) (acc : List Nat) (name : String) : List Nat :=
  match tags.find? (fun t => ilikeMatch name t.name) with
  | some t => acc ++ [t.id]
  | none => acc

/-- `AIClassificationService._get_or_create_tags`: resolve at most the
first five suggested names against existing tags by `ilike` search, keep
the first match per name, drop unmatched names; tags are never created. -/
def get_or_create_tags (tags : List Tag) (tag_names : List String) : List Nat :=
  (tag_names.take 5).foldl (tagStep tags) []

/-- One key/value pair of the `values` dictionary that
`apply_classification` builds for `document.write`. -/
inductive FieldUpdate where
  | extraction_confidence (c : ℚ)
  | extracted_vendor (v : String)
  | extracted_amount (a : ℚ)
  | extracted_date (d : String)
  | extracted_reference (r : String)
  | is_invoice (b : Bool)
  | invoice_state (s : String)
  | sensitivity (s : String)
  | tag_ids (ids : List Nat)
deriving DecidableEq, Repr

/-- The document fields written by `apply_classification`. The Odoo float
field `extraction_confidence` defaults to `0`; `Char`/`Date` fields that
may be unset are options; `tag_ids` holds tag identifiers. -/
structure Document where
  extraction_confidence : ℚ
  extracted_vendor : Option String
  extracted_amount : Option ℚ
  extracted_date : Option String
  extracted_reference : Option String
  is_invoice : Bool
  invoice_state : String
  sensitivity : String
  tag_ids : List Nat
deriving DecidableEq, Repr

/-- Apply one `values` entry to the document; `tag_ids` uses the Odoo
`(4, id)` link command, which adds each id not already present. -/
def applyField (doc : Document) : FieldUpdate → Document
  | .extraction_confidence c => { doc with extraction_confidence := c }
  | .extracted_vendor v => { doc with extracted_vendor := some v }
  | .extracted_amount a => { doc with extracted_amount := some a }
  | .extracted_date d => { doc with extracted_date := some d }
  | .extracted_reference r => { doc with extracted_reference := some r }
  | .is_invoice b => { doc with is_invoice := b }
  | .invoice_state s => { doc with invoice_state := s }
  | .sensitivity s => { doc with sensitivity := s }
  | .tag_ids ids =>
      { doc with tag_ids := doc.tag_ids ++ ids.filter (fun i => !doc.tag_ids.contains i) }

/-- `document.write(values)`. -/
def writeValues (doc : Document) (values : List FieldUpdate) : Document :=
  values.foldl applyField doc

/-- `if extracted.get('vendor_name'): values['extracted_vendor'] = ...`. -/
def vendorValues (extracted : ExtractedData) : List FieldUpdate :=
  if truthyStr extracted.vendor_name then
    [.extracted_vendor (extracted.vendor_name.getD "")] else []

/-- `if extracted.get('amount'): try float(...) except: pass`. -/
def amountValues (extracted : ExtractedData) : List FieldUpdate :=
  if truthyStr extracted.amount then
    match parseAmount ((extracted.amount.getD "").replace "," ".") with
    | some a => [.extracted_amount a]
    | none => []
  else []

/-- `if extracted.get('date'): values['extracted_date'] = ...`. -/
def dateValues (extracted : ExtractedData) : List FieldUpdate :=
  if truthyStr extracted.date then
    [.extracted_date (extracted.date.getD "")] else []

/-- `if extracted.get('reference'): values['extracted_reference'] = ...`. -/
def referenceValues (extracted : ExtractedData) : List FieldUpdate :=
  if truthyStr extracted.reference then
    [.extracted_reference (extracted.reference.getD "")] else []

/-- `if doc_type == 'invoice'`: set the invoice flag and pending state. -/
def typeValues (c : ClassificationResult) : List FieldUpdate :=
  if c.document_type.getD "" = "invoice" then
    [.is_invoice true, .invoice_state "pending"] else []

/-- `if classification.get('sensitivity') in sensitivity_map` (the map is
the identity on the four recognized levels). -/
def sensitivityValues (c : ClassificationResult) : List FieldUpdate :=
  match c.sensitivity with
  | some s =>
      if s = "public" ∨ s = "internal" ∨ s = "confidential" ∨ s = "restricted"
      then [.sensitivity s] else []
  | none => []

/-- `if self.auto_tag and classification.get('suggested_tags')`: resolve
the names, and only a non-empty id list produces a `tag_ids` entry. -/
def tagValues (svc : AIService) (tags : List Tag)
    (c : ClassificationResult) : List FieldUpdate :=
  if svc.auto_tag && truthyList c.suggested_tags then
    if !(get_or_create_tags tags (c.suggested_tags.getD []) = []) then
      [.tag_ids (get_or_create_tags tags (c.suggested_tags.getD []))]
    else []
  else []

/-- The `values` entries built after the unconditional
`extraction_confidence` assignment, in source order: extracted data
fields, invoice type flags, recognized sensitivity, and resolved tags. -/
def buildExtraValues (svc : AIService) (tags : List Tag)
    (c : ClassificationResult) : List FieldUpdate :=
  let extracted := c.extracted_data.getD default
  vendorValues extracted ++ amountValues extracted ++ dateValues extracted ++
    referenceValues extracted ++ typeValues c ++ sensitivityValues c ++
    tagValues svc tags c

/-- `AIClassificationService.apply_classification`: returns the (possibly
updated) document and the applied flag. An error-marked result or a
confidence below the threshold returns `false` without mutation;
otherwise the `values` dictionary (which always contains
`extraction_confidence`) is written and `true` is returned. -/
def apply_classification (svc : AIService) (tags : List Tag)
    (doc : Document) (c : ClassificationResult) : Document × Bool :=
  if c.error.isSome then (doc, false)
  else
    let confidence := c.confidence.getD 0
    if confidence < svc.confidence_threshold then (doc, false)
    else
      let values : List FieldUpdate :=
        .extraction_confidence confidence :: buildExtraValues svc tags c
      if values = [] then (doc, false)
      else (writeValues doc values, true)

/-! ## The processing queue state machine
(`document_processing_queue.py`) -/

/-- `dms.document.processing.queue.state` selection values. -/
inductive QueueState where
  | pending
  | processing
  | done
  | failed
  | cancelled
deriving DecidableEq, Repr

/-- One row of `dms.ai.classification.log`, as built by
`action_process`; fields left out of `log_vals` keep their defaults
(`0` for floats, `none` for text). -/
structure LogEntry where
  document_id : Nat
  service_id : Nat
  processing_time : ℚ
  classification_result : Option ClassificationResult
  confidence : ℚ
  document_type : Option String
  applied : Bool
  error_message : Option String
deriving DecidableEq, Repr

/-- One row of `dms.document.processing.queue`. Datetimes are minutes on
an integer time line, so `timedelta(minutes=m)` is `+ m`. -/
structure QueueEntry where
  document_id : Nat
  service_id : Nat
  state : QueueState
  priority : String
  attempts : Nat
  max_attempts : Nat
  scheduled_date : Int
  started_date : Option Int
  completed_date : Option Int
  result_message : Option String
  error_message : Option String
  log_id : Option LogEntry
deriving DecidableEq, Repr

/-- What `self.service_id.classify_document(...)` did: returned a result
dictionary, or raised an exception caught by the `except` clause. -/
inductive ProviderOutcome where
  | ok (r : ClassificationResult)
  | exn (msg : String)
deriving DecidableEq, Repr

/-- The state visible after one `action_process` call: the queue entry,
the target document and the audit log rows created during the call. -/
structure ProcessResult where
  entry : QueueEntry
  doc : Document
  logs : List LogEntry
deriving Repr

/-- `DocumentProcessingQueue.action_process`: entries not in
pending/failed are ignored; otherwise the entry moves to processing with
the attempt counter incremented before dispatch, and the provider outcome
decides the final write. An error-marked result re-arms to pending (or
fails out at max attempts) with `scheduled_date = now + 5 * attempts`
minutes and creates a log row; a raised exception takes the same state
transition but creates no log row; a clean result applies the
classification and completes as done with a log row. `now` is the wall
clock and `elapsed` the measured provider time. -/
def action_process (svc : AIService) (tags : List Tag) (doc : Document)
    (e : QueueEntry) (now : Int) (elapsed : ℚ) (outcome : ProviderOutcome) :
    ProcessResult :=
  if !(e.state = .pending ∨ e.state = .failed) then
    { entry := e, doc := doc, logs := [] }
  else
    let e1 := { e with
      state := QueueState.processing,
      started_date := some now,
      attempts := e.attempts + 1 }
    match outcome with
    | .exn msg =>
        { entry := { e1 with
            state := if e1.max_attempts ≤ e1.attempts then .failed else .pending,
            error_message := some msg,
            scheduled_date := now + 5 * (e1.attempts : Int) },
          doc := doc, logs := [] }
    | .ok r =>
        match r.error with
        | some err =>
            let log : LogEntry :=
              { document_id := e.document_id, service_id := e.service_id,
                processing_time := elapsed, classification_result := none,
                confidence := 0, document_type := none,
                applied := false, error_message := some err }
            { entry := { e1 with
                state := if e1.max_attempts ≤ e1.attempts then .failed else .pending,
                error_message := some err,
                scheduled_date := now + 5 * (e1.attempts : Int),
                log_id := some log },
              doc := doc, logs := [log] }
        | none =>
            let applied := (apply_classification svc tags doc r).2
            let log : LogEntry :=
              { document_id := e.document_id, service_id := e.service_id,
                processing_time := elapsed, classification_result := some r,
                confidence := r.confidence.getD 0,
                document_type := some (r.document_type.getD ""),
                applied := applied, error_message := none }
            { entry := { e1 with
                state := QueueState.done,
                completed_date := some now,
                result_message :=
                  some ("Classification: " ++ r.document_type.getD "Unknown"),
                log_id := some log },
              doc := (apply_classification svc tags doc r).1,
              logs := [log] }

/-- `DocumentProcessingQueue.action_cancel`: unconditionally writes the
cancelled state. -/
def action_cancel (e : QueueEntry) : QueueEntry :=
  { e with state := QueueState.cancelled }

/-- `DocumentProcessingQueue.action_retry`: unconditionally writes
pending, resets the attempt counter, clears the error and schedules now. -/
def action_retry (e : QueueEntry) (now : Int) : QueueEntry :=
  { e with
    state := QueueState.pending,
    attempts := 0,
    error_message := none,
    scheduled_date := now }

/-- A `dms.ai.classification.service` row as seen by the admission
search (`[('active', '=', True)]`). -/
structure ServiceRec where
  id : Nat
  active : Bool
deriving DecidableEq, Repr

/-- A row of the `create` values list built by
`add_documents_to_queue`. -/
structure NewQueueItem where
  document_id : Nat
  service_id : Nat
  priority : String
deriving DecidableEq, Repr

/-- The dedup search of `add_documents_to_queue`: an entry for this
document in state pending or processing (note: the domain does not
constrain the service). -/
def hasActiveEntry (queue : List QueueEntry) (doc_id : Nat) : Bool :=
  queue.any (fun e => e.document_id = doc_id ∧
    (e.state = QueueState.pending ∨ e.state = QueueState.processing))

/-- `DocumentProcessingQueue.add_documents_to_queue`: a falsy service id
selects the first active service (error if none); each requested document
is skipped when the dedup search finds an active entry, and the remaining
ones become new pending rows. -/
def add_documents_to_queue (services : List ServiceRec)
    (queue : List QueueEntry) (document_ids : List Nat)
    (service_id : Option Nat) (priority : String) :
    Except String (List NewQueueItem) :=
  let sid : Option Nat :=
    match service_id with
    | some s => some s
    | none => (services.find? (fun s => s.active)).map (fun s => s.id)
  match sid with
  | none => .error "No active AI classification service configured."
  | some s =>
      .ok (document_ids.filterMap (fun d =>
        if hasActiveEntry queue d then none
        else some { document_id := d, service_id := s, priority := priority }))

/-! ## Helper predicates and concrete fixtures -/

/-- The update writes the `tag_ids` key. -/
def touchesTags : FieldUpdate → Bool
  | .tag_ids _ => true
  | _ => false

/-- The update writes the `extraction_confidence` key. -/
def touchesConfidence : FieldUpdate → Bool
  | .extraction_confidence _ => true
  | _ => false

/-- The dispatch outcome is a provider error: an error-marked result
dictionary or a raised exception. -/
def isProviderError : ProviderOutcome → Bool
  | .ok r => r.error.isSome
  | .exn _ => true

/-- A service fixture with threshold 0.75 and auto-tagging on. -/
def svcFix : AIService :=
  { confidence_threshold := mkRat 3 4, auto_tag := true, auto_extract := true }

/-- A fresh document fixture. -/
def docFix : Document :=
  { extraction_confidence := 0, extracted_vendor := none,
    extracted_amount := none, extracted_date := none,
    extracted_reference := none, is_invoice := false,
    invoice_state := "none", sensitivity := "internal", tag_ids := [] }

/-- A queue entry fixture for document 1 / service 1 with max 3 attempts. -/
def entryFix (st : QueueState) (att : Nat) (sched : Int) : QueueEntry :=
  { document_id := 1, service_id := 1, state := st, priority := "1",
    attempts := att, max_attempts := 3, scheduled_date := sched,
    started_date := none, completed_date := none, result_message := none,
    error_message := none, log_id := none }

/-- An error-marked classification result fixture. -/
def errResultFix : ClassificationResult :=
  { error := some "provider unavailable", confidence := none,
    document_type := none, extracted_data := none, sensitivity := none,
    suggested_tags := none }

/-- A clean result fixture scoring below the 0.75 threshold. -/
def lowConfResultFix : ClassificationResult :=
  { error := none, confidence := some (mkRat 1 2), document_type := some "invoice",
    extracted_data := none, sensitivity := none, suggested_tags := none }

/-- A clean result fixture scoring exactly the 0.75 threshold, with every
other extracted field absent. -/
def eqConfResultFix : ClassificationResult :=
  { error := none, confidence := some (mkRat 3 4), document_type := none,
    extracted_data := none, sensitivity := none, suggested_tags := none }

/-- A clean above-threshold result fixture whose suggested tag names
match nothing in the small tag table `tagTableFix`. -/
def noMatchResultFix : ClassificationResult :=
  { error := none, confidence := some (mkRat 9 10), document_type := none,
    extracted_data := none, sensitivity := none,
    suggested_tags := some ["zzz", "qqq"] }

/-- A two-row `documents.tag` table fixture. -/
def tagTableFix : List Tag :=
  [{ id := 1, name := "Invoices" }, { id := 2, name := "Tax" }]

/-! ## Claim theorems: retention resolver -/

/-- C6: for a policy with trigger = document-date and duration
(Y years, M months), and a document whose document-date is `d`, the
resolver returns `d + Y years + M months` by calendar-correct
(`relativedelta`) addition. The witness instantiates the leap-year case
2020-01-31 + 1 month = 2020-02-29. -/
theorem c6_document_date_deadline (doc : DocDates) (p : RetentionPolicy)
    (d : Date) (htrig : p.retention_trigger = .document_date)
    (hd : doc.document_date = some d) :
    compute_retention_date doc (some p) =
      some (addRelativeDelta d p.retention_years p.retention_months) := by
  simp [compute_retention_date, htrig, hd]

/-- C6 witness: d = 2020-01-31, Y = 0, M = 1 gives 2020-02-29
(leap-year-aware, last valid day of February). -/
theorem c6_document_date_deadline_witness :
    compute_retention_date
        { create_date := none, document_date := some ⟨2020, 1, 31⟩ }
        (some { retention_years := 0, retention_months := 1,
                retention_trigger := .document_date })
      = some (addRelativeDelta ⟨2020, 1, 31⟩ 0 1) ∧
    addRelativeDelta ⟨2020, 1, 31⟩ 0 1 = ⟨2020, 2, 29⟩ :=
  ⟨c6_document_date_deadline
      { create_date := none, document_date := some ⟨2020, 1, 31⟩ }
      { retention_years := 0, retention_months := 1,
        retention_trigger := .document_date }
      ⟨2020, 1, 31⟩ rfl rfl,
   by decide⟩

/-- C9: the resolver returns (deadline = none, due = false) when no policy
is attached, and when the policy's trigger is document-date or
fiscal-year-end but the document has no document-date. -/
theorem c9_resolver_none (doc : DocDates) (policy : Option RetentionPolicy)
    (today : Date)
    (h : policy = none ∨ ∃ p, policy = some p ∧
      (p.retention_trigger = .document_date ∨
       p.retention_trigger = .fiscal_year_end) ∧ doc.document_date = none) :
    compute_retention_date doc policy = none ∧
    compute_retention_action_due today (compute_retention_date doc policy) = false := by
  rcases h with h | ⟨p, hp, htrig, hdd⟩
  · subst h
    exact ⟨rfl, rfl⟩
  · subst hp
    rcases htrig with htrig | htrig <;>
      simp [compute_retention_date, htrig, hdd, compute_retention_action_due]

/-- C9 witness: a document with no document-date under a document-date
triggered policy resolves to (none, false). -/
theorem c9_resolver_none_witness :
    compute_retention_date { create_date := some ⟨2024, 5, 1⟩, document_date := none }
        (some { retention_years := 10, retention_months := 0,
                retention_trigger := .document_date }) = none ∧
    compute_retention_action_due ⟨2025, 1, 1⟩
        (compute_retention_date { create_date := some ⟨2024, 5, 1⟩, document_date := none }
          (some { retention_years := 10, retention_months := 0,
                  retention_trigger := .document_date })) = false :=
  c9_resolver_none
    { create_date := some ⟨2024, 5, 1⟩, document_date := none }
    (some { retention_years := 10, retention_months := 0,
            retention_trigger := .document_date })
    ⟨2025, 1, 1⟩
    (Or.inr ⟨_, rfl, Or.inl rfl, rfl⟩)

/-! ## Helper lemmas: tag resolution and field updates -/

theorem tagStep_mem (tags : List Tag) (acc : List Nat) (name : String) :
    ∀ i ∈ tagStep tags acc name, i ∈ acc ∨ ∃ t ∈ tags, t.id = i := by
  intro i hi
  unfold tagStep at hi
  cases hfind : tags.find? (fun t => ilikeMatch name t.name) with
  | none => rw [hfind] at hi; exact Or.inl hi
  | some t =>
    rw [hfind] at hi
    rcases List.mem_append.mp hi with h | h
    · exact Or.inl h
    · refine Or.inr ⟨t, List.mem_of_find?_eq_some hfind, ?_⟩
      simp at h
      exact h.symm

theorem foldl_tagStep_mem (tags : List Tag) (l : List String) (acc : List Nat)
    (hacc : ∀ i ∈ acc, ∃ t ∈ tags, t.id = i) :
    ∀ i ∈ l.foldl (tagStep tags) acc, ∃ t ∈ tags, t.id = i := by
  induction l generalizing acc with
  | nil => simpa using hacc
  | cons a l ih =>
    intro i hi
    rw [List.foldl_cons] at hi
    refine ih (tagStep tags acc a) ?_ i hi
    intro j hj
    rcases tagStep_mem tags acc a j hj with h | h
    · exact hacc j h
    · exact h

theorem tagStep_length (tags : List Tag) (acc : List Nat) (name : String) :
    (tagStep tags acc name).length ≤ acc.length + 1 := by
  unfold tagStep
  cases hfind : tags.find? (fun t => ilikeMatch name t.name) <;> simp

theorem foldl_tagStep_length (tags : List Tag) (l : List String) (acc : List Nat) :
    (l.foldl (tagStep tags) acc).length ≤ acc.length + l.length := by
  induction l generalizing acc with
  | nil => simp
  | cons a l ih =>
    rw [List.foldl_cons]
    have h1 := ih (tagStep tags acc a)
    have h2 := tagStep_length tags acc a
    simp only [List.length_cons]
    omega

theorem foldl_tagStep_nomatch (tags : List Tag) (l : List String) (acc : List Nat)
    (h : ∀ name ∈ l, tags.find? (fun t => ilikeMatch name t.name) = none) :
    l.foldl (tagStep tags) acc = acc := by
  induction l generalizing acc with
  | nil => rfl
  | cons a l ih =>
    rw [List.foldl_cons]
    have hstep : tagStep tags acc a = acc := by
      unfold tagStep
      rw [h a (List.mem_cons_self a l)]
    rw [hstep]
    exact ih acc (fun n hn => h n (List.mem_cons_of_mem _ hn))

theorem get_or_create_tags_mem (tags : List Tag) (names : List String) :
    ∀ i ∈ get_or_create_tags tags names, ∃ t ∈ tags, t.id = i :=
  foldl_tagStep_mem tags (names.take 5) [] (by simp)

theorem get_or_create_tags_length (tags : List Tag) (names : List String) :
    (get_or_create_tags tags names).length ≤ 5 := by
  have h1 := foldl_tagStep_length tags (names.take 5) []
  have h2 : (names.take 5).length ≤ 5 := by
    simp [List.length_take]
  simp only [List.length_nil, Nat.zero_add] at h1
  unfold get_or_create_tags
  omega

theorem get_or_create_tags_take5 (tags : List Tag) (names : List String) :
    get_or_create_tags tags names = get_or_create_tags tags (names.take 5) := by
  simp [get_or_create_tags, List.take_take]

theorem get_or_create_tags_nomatch (tags : List Tag) (names : List String)
    (h : ∀ name ∈ names, ∀ t ∈ tags, ilikeMatch name t.name = false) :
    get_or_create_tags tags names = [] := by
  apply foldl_tagStep_nomatch
  intro name hn
  apply List.find?_eq_none.mpr
  intro t ht
  simp [h name (List.take_subset 5 names hn) t ht]

theorem applyField_tag_ids (doc : Document) (u : FieldUpdate)
    (h : touchesTags u = false) :
    (applyField doc u).tag_ids = doc.tag_ids := by
  cases u <;> simp_all [applyField, touchesTags]

theorem writeValues_tag_ids (doc : Document) (values : List FieldUpdate)
    (h : ∀ u ∈ values, touchesTags u = false) :
    (writeValues doc values).tag_ids = doc.tag_ids := by
  induction values generalizing doc with
  | nil => rfl
  | cons v vs ih =>
    have hv : touchesTags v = false := h v (List.mem_cons_self v vs)
    have hstep := applyField_tag_ids doc v hv
    simp only [writeValues, List.foldl_cons]
    rw [show (vs.foldl applyField (applyField doc v)) = writeValues (applyField doc v) vs from rfl]
    rw [ih (applyField doc v) (fun u hu => h u (List.mem_cons_of_mem _ hu))]
    exact hstep

theorem applyField_confidence (doc : Document) (u : FieldUpdate)
    (h : touchesConfidence u = false) :
    (applyField doc u).extraction_confidence = doc.extraction_confidence := by
  cases u <;> simp_all [applyField, touchesConfidence]

theorem writeValues_confidence (doc : Document) (values : List FieldUpdate)
    (h : ∀ u ∈ values, touchesConfidence u = false) :
    (writeValues doc values).extraction_confidence = doc.extraction_confidence := by
  induction values generalizing doc with
  | nil => rfl
  | cons v vs ih =>
    have hv : touchesConfidence v = false := h v (List.mem_cons_self v vs)
    have hstep := applyField_confidence doc v hv
    simp only [writeValues, List.foldl_cons]
    rw [show (vs.foldl applyField (applyField doc v)) = writeValues (applyField doc v) vs from rfl]
    rw [ih (applyField doc v) (fun u hu => h u (List.mem_cons_of_mem _ hu))]
    exact hstep

theorem buildExtraValues_no_confidence (svc : AIService) (tags : List Tag)
    (c : ClassificationResult) :
    ∀ u ∈ buildExtraValues svc tags c, touchesConfidence u = false := by
  intro u hu
  simp only [buildExtraValues, List.mem_append] at hu
  rcases hu with ((((((h | h) | h) | h) | h) | h) | h)
  · unfold vendorValues at h
    split at h <;> simp_all [touchesConfidence]
  · unfold amountValues at h
    split at h
    · split at h <;> simp_all [touchesConfidence]
    · simp at h
  · unfold dateValues at h
    split at h <;> simp_all [touchesConfidence]
  · unfold referenceValues at h
    split at h <;> simp_all [touchesConfidence]
  · unfold typeValues at h
    split at h
    · simp at h
      rcases h with rfl | rfl <;> rfl
    · simp at h
  · unfold sensitivityValues at h
    split at h
    · split at h <;> simp_all [touchesConfidence]
    · simp at h
  · unfold tagValues at h
    split at h
    · split at h <;> simp_all [touchesConfidence]
    · simp at h

theorem tagValues_nomatch (svc : AIService) (tags : List Tag)
    (c : ClassificationResult) (names : List String)
    (hsug : c.suggested_tags = some names)
    (hnm : ∀ name ∈ names, ∀ t ∈ tags, ilikeMatch name t.name = false) :
    tagValues svc tags c = [] := by
  unfold tagValues
  rw [hsug]
  simp [get_or_create_tags_nomatch tags names hnm]

theorem buildExtraValues_no_tags (svc : AIService) (tags : List Tag)
    (c : ClassificationResult) (names : List String)
    (hsug : c.suggested_tags = some names)
    (hnm : ∀ name ∈ names, ∀ t ∈ tags, ilikeMatch name t.name = false) :
    ∀ u ∈ buildExtraValues svc tags c, touchesTags u = false := by
  intro u hu
  simp only [buildExtraValues, List.mem_append] at hu
  rcases hu with ((((((h | h) | h) | h) | h) | h) | h)
  · unfold vendorValues at h
    split at h <;> simp_all [touchesTags]
  · unfold amountValues at h
    split at h
    · split at h <;> simp_all [touchesTags]
    · simp at h
  · unfold dateValues at h
    split at h <;> simp_all [touchesTags]
  · unfold referenceValues at h
    split at h <;> simp_all [touchesTags]
  · unfold typeValues at h
    split at h
    · simp at h
      rcases h with rfl | rfl <;> rfl
    · simp at h
  · unfold sensitivityValues at h
    split at h
    · split at h <;> simp_all [touchesTags]
    · simp at h
  · rw [tagValues_nomatch svc tags c names hsug hnm] at h
    simp at h

theorem apply_classification_error (svc : AIService) (tags : List Tag)
    (doc : Document) (c : ClassificationResult) (h : c.error.isSome = true) :
    apply_classification svc tags doc c = (doc, false) := by
  simp [apply_classification, h]

theorem apply_classification_low (svc : AIService) (tags : List Tag)
    (doc : Document) (c : ClassificationResult) (h1 : c.error = none)
    (h2 : c.confidence.getD 0 < svc.confidence_threshold) :
    apply_classification svc tags doc c = (doc, false) := by
  simp [apply_classification, h1, h2]

theorem apply_classification_pass (svc : AIService) (tags : List Tag)
    (doc : Document) (c : ClassificationResult) (h1 : c.error = none)
    (h2 : ¬ c.confidence.getD 0 < svc.confidence_threshold) :
    apply_classification svc tags doc c =
      (writeValues doc
        (.extraction_confidence (c.confidence.getD 0) :: buildExtraValues svc tags c),
       true) := by
  simp [apply_classification, h1, h2]

/-! ## Claim theorems: result applier -/

/-- C3: `apply_classification` returns false without mutating the
document when the result carries an error marker or when its confidence
is strictly below the threshold; confidence exactly equal to the
threshold passes the gate and the call returns true. -/
theorem c3_confidence_gating (svc : AIService) (tags : List Tag)
    (doc : Document) (c : ClassificationResult) :
    (c.error.isSome = true → apply_classification svc tags doc c = (doc, false)) ∧
    (c.error = none → c.confidence.getD 0 < svc.confidence_threshold →
      apply_classification svc tags doc c = (doc, false)) ∧
    (c.error = none → c.confidence.getD 0 = svc.confidence_threshold →
      (apply_classification svc tags doc c).2 = true) := by
  refine ⟨fun h => apply_classification_error svc tags doc c h,
          fun h1 h2 => apply_classification_low svc tags doc c h1 h2,
          fun h1 h2 => ?_⟩
  rw [apply_classification_pass svc tags doc c h1 (by rw [h2]; exact lt_irrefl _)]

/-- C3 witness: with threshold 0.75, an error-marked result and a
confidence-0.5 result leave the document untouched and return false,
while a confidence-0.75 result returns true. -/
theorem c3_confidence_gating_witness :
    apply_classification svcFix tagTableFix docFix errResultFix = (docFix, false) ∧
    apply_classification svcFix tagTableFix docFix lowConfResultFix = (docFix, false) ∧
    (apply_classification svcFix tagTableFix docFix eqConfResultFix).2 = true :=
  ⟨(c3_confidence_gating svcFix tagTableFix docFix errResultFix).1 rfl,
   (c3_confidence_gating svcFix tagTableFix docFix lowConfResultFix).2.1 rfl (by decide),
   (c3_confidence_gating svcFix tagTableFix docFix eqConfResultFix).2.2 rfl rfl⟩

/-- C8: with auto-tag enabled, tag resolution only ever returns
identifiers of existing tags, considers at most the first 5 names,
returns at most 5 identifiers, yields no identifier when no name matches
any existing tag (case-insensitive substring), and in that case the
applied document keeps exactly its previous tag assignments. -/
theorem c8_taxonomy_integrity (svc : AIService) (tags : List Tag)
    (doc : Document) (c : ClassificationResult) (names : List String)
    (_hauto : svc.auto_tag = true) :
    (∀ i ∈ get_or_create_tags tags names, ∃ t ∈ tags, t.id = i) ∧
    get_or_create_tags tags names = get_or_create_tags tags (names.take 5) ∧
    (get_or_create_tags tags names).length ≤ 5 ∧
    ((∀ name ∈ names, ∀ t ∈ tags, ilikeMatch name t.name = false) →
      get_or_create_tags tags names = []) ∧
    (c.suggested_tags = some names →
      (∀ name ∈ names, ∀ t ∈ tags, ilikeMatch name t.name = false) →
      (apply_classification svc tags doc c).1.tag_ids = doc.tag_ids) := by
  refine ⟨get_or_create_tags_mem tags names,
          get_or_create_tags_take5 tags names,
          get_or_create_tags_length tags names,
          get_or_create_tags_nomatch tags names,
          fun hsug hnm => ?_⟩
  by_cases herr : c.error.isSome
  · rw [apply_classification_error svc tags doc c herr]
  · rw [Option.not_isSome_iff_eq_none] at herr
    by_cases hconf : c.confidence.getD 0 < svc.confidence_threshold
    · rw [apply_classification_low svc tags doc c herr hconf]
    · rw [apply_classification_pass svc tags doc c herr hconf]
      have hnotags := buildExtraValues_no_tags svc tags c names hsug hnm
      have hall : ∀ u ∈ (FieldUpdate.extraction_confidence (c.confidence.getD 0) ::
          buildExtraValues svc tags c), touchesTags u = false := by
        intro u hu
        rcases List.mem_cons.mp hu with rfl | hu
        · rfl
        · exact hnotags u hu
      exact writeValues_tag_ids doc _ hall

/-- C8 witness: suggested names "zzz"/"qqq" match neither "Invoices" nor
"Tax"; resolution returns no identifier and the applied document keeps
its (empty) tag set even though the result passes the threshold. -/
theorem c8_taxonomy_integrity_witness :
    get_or_create_tags tagTableFix ["zzz", "qqq"] = [] ∧
    (apply_classification svcFix tagTableFix docFix noMatchResultFix).1.tag_ids =
      docFix.tag_ids :=
  ⟨(c8_taxonomy_integrity svcFix tagTableFix docFix noMatchResultFix
      ["zzz", "qqq"] rfl).2.2.2.1 (by decide),
   (c8_taxonomy_integrity svcFix tagTableFix docFix noMatchResultFix
      ["zzz", "qqq"] rfl).2.2.2.2 rfl (by decide)⟩

/-- C10: for a result with no error marker and confidence at or above the
threshold, `apply_classification` always returns true and always writes
`extraction_confidence` to the result's confidence, whatever the other
fields hold. -/
theorem c10_confidence_always_written (svc : AIService) (tags : List Tag)
    (doc : Document) (c : ClassificationResult)
    (herr : c.error = none)
    (hconf : ¬ c.confidence.getD 0 < svc.confidence_threshold) :
    (apply_classification svc tags doc c).2 = true ∧
    (apply_classification svc tags doc c).1.extraction_confidence =
      c.confidence.getD 0 := by
  rw [apply_classification_pass svc tags doc c herr hconf]
  refine ⟨rfl, ?_⟩
  show (writeValues (applyField doc (.extraction_confidence (c.confidence.getD 0)))
      (buildExtraValues svc tags c)).extraction_confidence = c.confidence.getD 0
  rw [writeValues_confidence _ _ (buildExtraValues_no_confidence svc tags c)]
  rfl

/-- C10 witness: a result carrying only a confidence of 0.75 (every other
field absent) is applied with `extraction_confidence` set to 0.75. -/
theorem c10_confidence_always_written_witness :
    (apply_classification svcFix tagTableFix docFix eqConfResultFix).2 = true ∧
    (apply_classification svcFix tagTableFix docFix eqConfResultFix).1.extraction_confidence
      = eqConfResultFix.confidence.getD 0 :=
  c10_confidence_always_written svcFix tagTableFix docFix eqConfResultFix rfl (by decide)

/-! ## Claim theorems: processing queue -/

/-- Branch lemma: a dispatched entry (pending or failed) taking a
provider error — error-marked result or raised exception — gets the
state decided by the attempt/max comparison and a scheduled date of
now + 5 × (incremented attempt count). -/
theorem action_process_provider_error (svc : AIService) (tags : List Tag)
    (doc : Document) (e : QueueEntry) (now : Int) (elapsed : ℚ)
    (outcome : ProviderOutcome)
    (hstate : e.state = QueueState.pending ∨ e.state = QueueState.failed)
    (herr : isProviderError outcome = true) :
    (action_process svc tags doc e now elapsed outcome).entry.state =
      (if e.max_attempts ≤ e.attempts + 1 then QueueState.failed
       else QueueState.pending) ∧
    (action_process svc tags doc e now elapsed outcome).entry.scheduled_date =
      now + 5 * ((e.attempts + 1 : Nat) : Int) := by
  rcases outcome with r | msg
  · rcases hr : r.error with _ | err
    · simp [isProviderError, hr] at herr
    · rcases hstate with h | h <;> simp [action_process, h, hr]
  · rcases hstate with h | h <;> simp [action_process, h]

/-- C1 counterexample: a pending entry with 2 previous attempts and
max-attempts 3 takes a third provider error at time 15; the attempt
counter reaches max-attempts and the entry transitions to failed, but a
scheduled-for IS still set (to now + 5 × 3 = 30), contradicting the
claim that no further scheduled-for is set on the failed transition. -/
theorem c1_counterexample :
    (entryFix .pending 2 15).attempts + 1 = (entryFix .pending 2 15).max_attempts ∧
    (action_process svcFix [] docFix (entryFix .pending 2 15) 15 1
        (.ok errResultFix)).entry.state = QueueState.failed ∧
    (action_process svcFix [] docFix (entryFix .pending 2 15) 15 1
        (.ok errResultFix)).entry.scheduled_date = 30 ∧
    ¬ (action_process svcFix [] docFix (entryFix .pending 2 15) 15 1
        (.ok errResultFix)).entry.scheduled_date =
      (entryFix .pending 2 15).scheduled_date := by
  decide

/-- C1 (amended): on a provider error (error-marked result or raised
exception), a dispatched entry whose incremented attempt counter is
still below max-attempts re-arms to pending, and one that has reached
max-attempts transitions to failed; in BOTH cases scheduled-for is set
to now + 5 minutes × attempt count (the value is inert on the failed
branch since only pending entries are selected for dispatch). -/
theorem c1_retry_backoff (svc : AIService) (tags : List Tag) (doc : Document)
    (e : QueueEntry) (now : Int) (elapsed : ℚ) (outcome : ProviderOutcome)
    (hstate : e.state = QueueState.pending ∨ e.state = QueueState.failed)
    (herr : isProviderError outcome = true) :
    (e.attempts + 1 < e.max_attempts →
      (action_process svc tags doc e now elapsed outcome).entry.state =
        QueueState.pending) ∧
    (e.max_attempts ≤ e.attempts + 1 →
      (action_process svc tags doc e now elapsed outcome).entry.state =
        QueueState.failed) ∧
    (action_process svc tags doc e now elapsed outcome).entry.scheduled_date =
      now + 5 * ((e.attempts + 1 : Nat) : Int) := by
  obtain ⟨hs, hd⟩ :=
    action_process_provider_error svc tags doc e now elapsed outcome hstate herr
  refine ⟨fun hlt => ?_, fun hge => ?_, hd⟩
  · rw [hs, if_neg (by omega)]
  · rw [hs, if_pos hge]

/-- C1 witness: an entry with max-attempts 3 takes provider errors at
times 0, 5 and 15 (each time it becomes due): the first two re-arm to
pending with scheduled-for 5 and 15 (deltas 5 and 10 minutes), the third
fails it out. -/
theorem c1_retry_backoff_witness :
    (action_process svcFix [] docFix (entryFix .pending 0 0) 0 1
        (.ok errResultFix)).entry.state = QueueState.pending ∧
    (action_process svcFix [] docFix (entryFix .pending 0 0) 0 1
        (.ok errResultFix)).entry.scheduled_date = 0 + 5 * ((0 + 1 : Nat) : Int) ∧
    (action_process svcFix [] docFix (entryFix .pending 1 5) 5 1
        (.ok errResultFix)).entry.scheduled_date - 5 = 10 ∧
    (action_process svcFix [] docFix (entryFix .pending 1 5) 5 1
        (.ok errResultFix)).entry.state = QueueState.pending ∧
    (action_process svcFix [] docFix (entryFix .pending 2 15) 15 1
        (.ok errResultFix)).entry.state = QueueState.failed :=
  ⟨(c1_retry_backoff svcFix [] docFix (entryFix .pending 0 0) 0 1
      (.ok errResultFix) (Or.inl rfl) rfl).1 (by decide),
   (c1_retry_backoff svcFix [] docFix (entryFix .pending 0 0) 0 1
      (.ok errResultFix) (Or.inl rfl) rfl).2.2,
   by decide,
   by decide,
   by decide⟩

/-- C2 counterexample: the queue holds a pending entry for document 1
with service 1; an enqueue request for document 1 with service 2 creates
nothing even though no pending/processing entry exists for the
(document 1, service 2) pair — the dedup search ignores the service. -/
theorem c2_counterexample :
    (¬ ∃ e ∈ [entryFix .pending 0 0], e.document_id = 1 ∧ e.service_id = 2 ∧
        (e.state = QueueState.pending ∨ e.state = QueueState.processing)) ∧
    add_documents_to_queue [] [entryFix .pending 0 0] [1] (some 2) "1" =
      .ok [] :=
  ⟨by decide, rfl⟩

/-- C2 (amended): with an explicit service, a new queue entry is created
for a requested document iff no entry already existed (before the call)
in state pending or processing for that document, whatever its service;
such requests are skipped silently. -/
theorem c2_admission_dedup (services : List ServiceRec)
    (queue : List QueueEntry) (document_ids : List Nat) (sid : Nat)
    (priority : String) (items : List NewQueueItem) (d : Nat)
    (h : add_documents_to_queue services queue document_ids (some sid) priority
      = .ok items) :
    (∃ it ∈ items, it.document_id = d) ↔
      (d ∈ document_ids ∧ ¬ ∃ e ∈ queue, e.document_id = d ∧
        (e.state = QueueState.pending ∨ e.state = QueueState.processing)) := by
  have hitems : items = document_ids.filterMap (fun a =>
      if hasActiveEntry queue a then none
      else some { document_id := a, service_id := sid, priority := priority }) := by
    simp only [add_documents_to_queue, Except.ok.injEq] at h
    exact h.symm
  have hactive : ∀ a, hasActiveEntry queue a = false ↔
      ¬ ∃ e ∈ queue, e.document_id = a ∧
        (e.state = QueueState.pending ∨ e.state = QueueState.processing) := by
    intro a
    simp [hasActiveEntry, List.any_eq_true]
  subst hitems
  constructor
  · rintro ⟨it, hit, hd⟩
    rcases List.mem_filterMap.mp hit with ⟨a, ha, hf⟩
    by_cases hact : hasActiveEntry queue a = true
    · rw [if_pos hact] at hf
      cases hf
    · rw [if_neg hact] at hf
      have hit2 : ({ document_id := a, service_id := sid, priority := priority } :
          NewQueueItem) = it := Option.some.inj hf
      have had : a = d := by
        rw [← hit2] at hd
        exact hd
      subst had
      exact ⟨ha, (hactive a).mp (Bool.eq_false_iff.mpr hact)⟩
  · rintro ⟨hd, hnone⟩
    have hact : hasActiveEntry queue d = false := (hactive d).mpr hnone
    refine ⟨{ document_id := d, service_id := sid, priority := priority },
      List.mem_filterMap.mpr ⟨d, hd, ?_⟩, rfl⟩
    simp [hact]

/-- C2 witness: document 1 has a pending entry so its request is
dropped, document 2 has none so its request creates an entry. -/
theorem c2_admission_dedup_witness :
    (∃ it ∈ ([{ document_id := 2, service_id := 7, priority := "1" }] :
        List NewQueueItem), it.document_id = 2) ∧
    ¬ (∃ it ∈ ([{ document_id := 2, service_id := 7, priority := "1" }] :
        List NewQueueItem), it.document_id = 1) :=
  ⟨(c2_admission_dedup [] [entryFix .pending 0 0] [1, 2] 7 "1"
      [{ document_id := 2, service_id := 7, priority := "1" }] 2 rfl).mpr
      ⟨by decide, by decide⟩,
   by decide⟩

/-- C4 counterexample: a done entry is moved to cancelled by the
operator cancel action and to pending (attempts reset) by the operator
retry action, so done is not terminal under operator actions and the
cancel/retry guards claimed by the spec do not exist. -/
theorem c4_counterexample :
    (entryFix .done 1 0).state = QueueState.done ∧
    (action_cancel (entryFix .done 1 0)).state = QueueState.cancelled ∧
    (action_retry (entryFix .done 1 0) 42).state = QueueState.pending ∧
    (action_retry (entryFix .done 1 0) 42).attempts = 0 := by
  decide

/-- C4 (amended): done and cancelled are terminal with respect to
dispatch only — `action_process` leaves such entries unchanged and
records nothing; the operator cancel action moves an entry of ANY state
to cancelled, and the operator retry action moves an entry of ANY state
to pending with the attempt counter reset to 0, the error cleared and
the schedule time set to now. -/
theorem c4_operator_actions (svc : AIService) (tags : List Tag)
    (doc : Document) (e : QueueEntry) (now : Int) (elapsed : ℚ)
    (outcome : ProviderOutcome) (now2 : Int) :
    ((e.state = QueueState.done ∨ e.state = QueueState.cancelled) →
      action_process svc tags doc e now elapsed outcome =
        { entry := e, doc := doc, logs := [] }) ∧
    action_cancel e = { e with state := QueueState.cancelled } ∧
    action_retry e now2 =
      { e with
        state := QueueState.pending,
        attempts := 0,
        error_message := none,
        scheduled_date := now2 } := by
  refine ⟨fun h => ?_, rfl, rfl⟩
  rcases h with h | h <;> simp [action_process, h]

/-- C4 witness: instantiated on a done entry. -/
theorem c4_operator_actions_witness :
    action_process svcFix [] docFix (entryFix .done 2 0) 9 1 (.exn "late") =
      { entry := entryFix .done 2 0, doc := docFix, logs := [] } ∧
    action_cancel (entryFix .done 2 0) =
      { entryFix .done 2 0 with state := QueueState.cancelled } ∧
    action_retry (entryFix .done 2 0) 7 =
      { entryFix .done 2 0 with
        state := QueueState.pending,
        attempts := 0,
        error_message := none,
        scheduled_date := 7 } :=
  ⟨(c4_operator_actions svcFix [] docFix (entryFix .done 2 0) 9 1
      (.exn "late") 7).1 (Or.inl rfl),
   (c4_operator_actions svcFix [] docFix (entryFix .done 2 0) 9 1
      (.exn "late") 7).2.1,
   (c4_operator_actions svcFix [] docFix (entryFix .done 2 0) 9 1
      (.exn "late") 7).2.2⟩

/-- C5: a dispatched entry whose provider call returns a result without
an error marker transitions to done, whatever `apply_classification`
decided; the witness shows this for a below-threshold confidence. -/
theorem c5_success_done (svc : AIService) (tags : List Tag) (doc : Document)
    (e : QueueEntry) (now : Int) (elapsed : ℚ) (r : ClassificationResult)
    (hstate : e.state = QueueState.pending ∨ e.state = QueueState.failed)
    (herr : r.error = none) :
    (action_process svc tags doc e now elapsed (.ok r)).entry.state =
      QueueState.done := by
  rcases hstate with h | h <;> simp [action_process, h, herr]

/-- C5 witness: a clean result with confidence 0.5, below the 0.75
threshold, is not applied but the entry still completes as done. -/
theorem c5_success_done_witness :
    (action_process svcFix [] docFix (entryFix .pending 0 0) 0 1
        (.ok lowConfResultFix)).entry.state = QueueState.done ∧
    (apply_classification svcFix [] docFix lowConfResultFix).2 = false :=
  ⟨c5_success_done svcFix [] docFix (entryFix .pending 0 0) 0 1
      lowConfResultFix (Or.inl rfl) rfl,
   by decide⟩

/-- C7 counterexample: a provider error arriving as a raised exception
during dispatch records NO audit log entry (the claim says exactly one
is recorded for every errored attempt). -/
theorem c7_counterexample :
    (entryFix .pending 0 0).state = QueueState.pending ∧
    (action_process svcFix [] docFix (entryFix .pending 0 0) 0 1
        (.exn "connection reset")).logs = [] := by
  decide

/-- C7 (amended): a provider error arriving as an error-marked result
records exactly one audit log entry carrying the error message; a
provider error arriving as a raised exception records none. -/
theorem c7_error_logging (svc : AIService) (tags : List Tag) (doc : Document)
    (e : QueueEntry) (now : Int) (elapsed : ℚ)
    (hstate : e.state = QueueState.pending ∨ e.state = QueueState.failed) :
    (∀ r err, r.error = some err →
      (action_process svc tags doc e now elapsed (.ok r)).logs =
        [{ document_id := e.document_id, service_id := e.service_id,
           processing_time := elapsed, classification_result := none,
           confidence := 0, document_type := none, applied := false,
           error_message := some err }]) ∧
    (∀ msg, (action_process svc tags doc e now elapsed (.exn msg)).logs = []) := by
  constructor
  · intro r err hr
    rcases hstate with h | h <;> simp [action_process, h, hr]
  · intro msg
    rcases hstate with h | h <;> simp [action_process, h]

/-- C7 witness: one log row with the error text for an error-marked
result, no log row for a raised exception. -/
theorem c7_error_logging_witness :
    (action_process svcFix [] docFix (entryFix .pending 0 0) 0 1
        (.ok errResultFix)).logs =
      [{ document_id := 1, service_id := 1, processing_time := 1,
         classification_result := none, confidence := 0,
         document_type := none, applied := false,
         error_message := some "provider unavailable" }] ∧
    (action_process svcFix [] docFix (entryFix .pending 0 0) 0 1
        (.exn "timeout")).logs = [] :=
  ⟨(c7_error_logging svcFix [] docFix (entryFix .pending 0 0) 0 1
      (Or.inl rfl)).1 errResultFix "provider unavailable" rfl,
   (c7_error_logging svcFix [] docFix (entryFix .pending 0 0) 0 1
      (Or.inl rfl)).2 "timeout"⟩
